import Mathlib

/-!
# Verification of the tether provider-abstraction core

Shallow embedding, in Lean 4, of the provider abstraction and routing layer of
the `tether` repository:

* `template/backend/app/services/pricing.py`   — cost estimator
* `template/backend/app/routes/chat.py`        — response classifier and the
  vision/thinking dispatch policy of the chat route
* `template/backend/app/services/llm.py`       — the LLM service adapters
  (mock, OpenAI, Ollama, local) and Ollama discovery
* `template/backend/app/routes/models.py`      — runtime model switching
* `packages/tether-python/src/tether/llm/ollama.py` — the packaged Ollama
  adapter and its discovery function
* `packages/tether-python/src/tether/llm/base.py`   — the packaged mock adapter

Python strings are modelled as Lean `String` (sequences of unicode code
points; slicing and `startswith` operate on code points exactly as in
CPython).  Python `float` prices are modelled as exact rationals (`ℚ`): every
numeric fact proved below concerns table lookup, branch selection, and the
distinction between a priced result and the `None` sentinel, none of which
depend on binary rounding.  Network I/O is modelled by passing the backend as
an explicit oracle (a function from the request payload the code builds to
the HTTP response it receives), so the sequence of requests a function issues
is part of its observable result.  A Python function that can raise is
modelled as returning an `Except`/`Option` error component; a totally
handled `try`/`except` therefore becomes a total function.
-/

/-! ## Python string helpers -/

/-- Python `str.startswith`: code-point prefix test (`k` is a prefix of `s`). -/
def pyStartswith (s k : String) : Bool := k.data.isPrefixOf s.data

/-- Python whitespace characters stripped by `str.strip()` (the ASCII ones;
no claim involves non-ASCII whitespace). -/
def pyIsSpace (c : Char) : Bool :=
  c = ' ' || c = '\t' || c = '\n' || c = '\x0d' || c = '\x0b' || c = '\x0c'

/-- Python `str.strip()` on a list of characters: drop whitespace from both
ends. -/
def pyStripList (l : List Char) : List Char :=
  ((l.dropWhile pyIsSpace).reverse.dropWhile pyIsSpace).reverse

/-- Python `str.strip()` on a `String`. -/
def pyStrip (s : String) : String := ⟨pyStripList s.data⟩

/-- Python truthiness of an optional string (`not x` is true for `None` and
for the empty string). -/
def pyFalsyStr : Option String → Bool
  | none => true
  | some s => s == ""

/-- Python truthiness of an optional list (`None` and `[]` are falsy). -/
def pyTruthyList : Option (List String) → Bool
  | none => false
  | some l => !l.isEmpty

/-! ## Cost estimator (`template/backend/app/services/pricing.py`) -/

/-- Embedding of `MODEL_PRICING`: the pricing dict of `pricing.py`, in insertion order
(Python dicts iterate in insertion order).  Values are
`(input_cost_per_m, output_cost_per_m)` in USD, as exact rationals. -/
def MODEL_PRICING : List (String × (ℚ × ℚ)) :=
  [ ("gpt-4o", (2.50, 10.00)),
    ("gpt-4o-mini", (0.15, 0.60)),
    ("gpt-4.1", (2.00, 8.00)),
    ("gpt-4.1-mini", (0.40, 1.60)),
    ("gpt-4.1-nano", (0.10, 0.40)),
    ("o3-mini", (1.10, 4.40)),
    ("gemini-2.0-flash", (0.10, 0.40)),
    ("gemini-2.5-flash", (0.15, 0.60)),
    ("gemini-2.5-pro", (1.25, 10.00)),
    ("gemini-2.0-flash-lite", (0.075, 0.30)) ]

/-- Python `dict.get`: exact-key lookup (keys are unique, so first match is
the dict entry). -/
def dictGet (k : String) : List (String × (ℚ × ℚ)) → Option (ℚ × ℚ)
  | [] => none
  | (k₀, v) :: rest => if k = k₀ then some v else dictGet k rest

/-- The `for key, val in MODEL_PRICING.items(): if model.startswith(key)`
scan of `estimate_cost`: first entry whose key the model name starts with. -/
def scanStartswith (model : String) : List (String × (ℚ × ℚ)) → Option (ℚ × ℚ)
  | [] => none
  | (k, v) :: rest => if pyStartswith model k then some v else scanStartswith model rest

/-- The pricing-resolution part of `estimate_cost` (pricing.py lines 28–33):
exact lookup first, then the first `startswith` match.  (The `if not pricing`
truthiness test in the source cannot fire on a present entry, since a
non-empty tuple is always truthy.) -/
def resolvePricing (model : String) : Option (ℚ × ℚ) :=
  match dictGet model MODEL_PRICING with
  | some p => some p
  | none => scanStartswith model MODEL_PRICING

/-- Embedding of `estimate_cost(model, input_tokens, output_tokens)` (pricing.py lines
21–37): `None` if no entry resolves, otherwise
`(input_tokens * input_cost + output_tokens * output_cost) / 1_000_000`. -/
def estimate_cost (model : String) (input_tokens output_tokens : ℤ) : Option ℚ :=
  match resolvePricing model with
  | none => none
  | some (ic, oc) => some ((input_tokens * ic + output_tokens * oc) / 1000000)

/-! ## Response classifier (`template/backend/app/routes/chat.py`) -/

/-- ASCII lowercasing, as used by a case-insensitive regex match. -/
def lcAscii (c : Char) : Char :=
  if 'A' ≤ c ∧ c ≤ 'Z' then Char.ofNat (c.toNat + 32) else c

/-- If `pat` is a case-insensitive prefix of `text`, return the matched
segment of `text` (same length as `pat`) together with the remainder. -/
def ciStrip : List Char → List Char → Option (List Char × List Char)
  | [], t => some ([], t)
  | _ :: _, [] => none
  | p :: ps, t :: ts =>
      if lcAscii p = lcAscii t then
        match ciStrip ps ts with
        | some (m, r) => some (t :: m, r)
        | none => none
      else none

/-- Leftmost case-insensitive occurrence of `pat` in a text: returns
`(before, matched, after)` with `text = before ++ matched ++ after`. -/
def splitCI (pat : List Char) : List Char → Option (List Char × List Char × List Char)
  | [] =>
      match ciStrip pat [] with
      | some (m, r) => some ([], m, r)
      | none => none
  | c :: cs =>
      match ciStrip pat (c :: cs) with
      | some (m, r) => some ([], m, r)
      | none =>
          match splitCI pat cs with
          | some (b, m, r) => some (c :: b, m, r)
          | none => none

/-- The opening reasoning delimiter. -/
def openTag : List Char := "<think>".data

/-- The closing reasoning delimiter. -/
def closeTag : List Char := "</think>".data

/-- One step of the lazy case-insensitive regex `<think>(.*?)</think>`:
the leftmost match is the leftmost `<think>` followed by the nearest
subsequent `</think>`.  Returns `(before, inner, after)`. -/
def thinkSplit (text : List Char) : Option (List Char × List Char × List Char) :=
  match splitCI openTag text with
  | none => none
  | some (b, _, r₁) =>
      match splitCI closeTag r₁ with
      | none => none
      | some (inner, _, r₂) => some (b, inner, r₂)

/-- All (non-overlapping, leftmost-first) matches of the think pattern,
computed with explicit fuel so that the definition reduces structurally.
Returns the captured inner texts (the `findall` of the source) and the text
with every matched span removed (the `sub("", text)` of the source). -/
def thinkScanF : Nat → List Char → List (List Char) × List Char
  | 0, text => ([], text)
  | fuel + 1, text =>
      match thinkSplit text with
      | none => ([], text)
      | some (b, inner, r₂) =>
          let rest := thinkScanF fuel r₂
          (inner :: rest.1, b ++ rest.2)

/-- Embedding of `thinkScan text = (thinking_parts, text_with_matches_removed)`.  The fuel
`text.length` never runs out: each successful `thinkSplit` step consumes at
least the two delimiters from the text (see `thinkSplit_length`). -/
def thinkScan (text : List Char) : List (List Char) × List Char :=
  thinkScanF text.length text

/-- Embedding of `parse_thinking_content` (chat.py lines 55–78): find every
`<think>(.*?)</think>` span (case-insensitive, dot-matches-newline); if none,
return the text unchanged with no thinking; otherwise return the text with
the spans removed and stripped, and the stripped inner texts joined by a
blank line. -/
def parse_thinking_content (text : String) : String × Option String :=
  let scanned := thinkScan text.data
  if scanned.1.isEmpty then (text, none)
  else
    (⟨pyStripList scanned.2⟩,
     some ⟨List.intercalate "\n\n".data (scanned.1.map pyStripList)⟩)

/-- Does a text contain a case-insensitive occurrence of `pat`? -/
def containsCI (pat : List Char) (s : String) : Bool := (splitCI pat s.data).isSome

/-- No character of the list lowercases to the tag-opening character `<`
(equivalently, the list contains no `<`, since only `<` lowercases to `<`);
such a piece of text cannot contain or start a delimiter occurrence. -/
def noLt (l : List Char) : Bool := l.all (fun c => lcAscii c != '<')

/-! ## LLM service adapters (`template/backend/app/services/llm.py`)

Each adapter's mutable attributes become a state structure; `None`-able
transport handles become `Option Unit` (only their `None`-ness is ever
inspected).  An HTTP call is modelled by an oracle argument mapping the
request payload the code builds to the response the backend returns, so a
function's request trace is part of its result.  `raise_for_status` raises
exactly on non-2xx statuses (httpx semantics). -/

/-- Errors raised by adapter operations. -/
inductive LLMError where
  | runtimeError (msg : String)
  | httpStatusError (status : Nat)
  deriving DecidableEq, Repr

/-- httpx `Response.is_success`: 2xx. -/
def is2xx (status : Nat) : Bool := 200 ≤ status && status < 300

/-- Python `prompt[:50]` (slices by code point). -/
def pySlice50 (s : String) : String := ⟨s.data.take 50⟩

/-- Is an `Except` a success? -/
def exceptOk {ε α : Type} : Except ε α → Bool
  | .ok _ => true
  | .error _ => false

/-! ### Mock adapter (template `MockLLMService`, llm.py lines 100–125) -/

/-- State of the template `MockLLMService`: just the `_ready` flag. -/
structure MockState where
  ready : Bool
  deriving DecidableEq, Repr

/-- Embedding of `MockLLMService.is_ready`. -/
def MockLLMService.is_ready (st : MockState) : Bool := st.ready

/-- Embedding of `MockLLMService.complete` (llm.py lines 118–125): returns the templated
response unconditionally; the state is untouched (the method body performs no
attribute assignment). -/
def MockLLMService.complete (st : MockState) (prompt : String) :
    MockState × Except LLMError String :=
  (st, .ok ("This is a mock response to: " ++ pySlice50 prompt ++ "..."))

/-- State of the packaged `MockLLMService` (base.py lines 90–118):
the configured response and the `_ready` flag. -/
structure PkgMockState where
  response : String
  ready : Bool
  deriving DecidableEq, Repr

/-- Packaged `MockLLMService.is_ready`. -/
def PkgMock.is_ready (st : PkgMockState) : Bool := st.ready

/-- Packaged `MockLLMService.complete` (base.py lines 111–118): returns the
configured response unconditionally. -/
def PkgMock.complete (st : PkgMockState) (_prompt : String) :
    PkgMockState × Except LLMError String :=
  (st, .ok st.response)

/-! ### OpenAI adapter (template `OpenAIService`, llm.py lines 128–234) -/

/-- State of the template `OpenAIService`. -/
structure OpenAIState where
  apiKey : Option String
  model : String
  client : Option Unit
  ready : Bool
  needsKey : Bool
  deriving DecidableEq, Repr

/-- Embedding of `OpenAIService.is_ready` (llm.py lines 176–177). -/
def OpenAIService.is_ready (st : OpenAIState) : Bool :=
  st.ready && st.client.isSome

/-- An OpenAI chat-completions response, as observed by the adapter. -/
structure OpenAIResponse where
  content : Option String
  promptTokens : Option Nat
  completionTokens : Option Nat
  deriving DecidableEq, Repr

/-- A chat message as sent on the wire. -/
structure WireMessage where
  role : String
  content : String
  images : Option (List String)
  deriving DecidableEq, Repr

/-- Embedding of `OpenAIService.complete` (llm.py lines 179–196): raises if the client is
absent, else returns the first choice content (`or ""`). -/
def OpenAIService.complete (st : OpenAIState) (prompt : String)
    (oracle : List WireMessage → OpenAIResponse) :
    OpenAIState × Except LLMError String :=
  if st.client.isNone then
    (st, .error (.runtimeError "OpenAI client not initialized"))
  else
    let resp := oracle [{ role := "user", content := prompt, images := none }]
    (st, .ok (resp.content.getD ""))

/-- The result dict of the adapters' `chat` methods. -/
structure ChatResult where
  content : String
  thinking : Option String
  inputTokens : Option Nat
  outputTokens : Option Nat
  deriving DecidableEq, Repr

/-- Embedding of `OpenAIService.chat` (llm.py lines 198–234): raises if the client is
absent, else returns content with `thinking = None` and the usage counts. -/
def OpenAIService.chat (st : OpenAIState) (messages : List WireMessage)
    (oracle : List WireMessage → OpenAIResponse) :
    OpenAIState × Except LLMError ChatResult :=
  if st.client.isNone then
    (st, .error (.runtimeError "OpenAI client not initialized"))
  else
    let resp := oracle messages
    (st, .ok { content := resp.content.getD "", thinking := none,
               inputTokens := resp.promptTokens, outputTokens := resp.completionTokens })

/-! ### Native in-process adapter (template `LocalLLMService`, llm.py lines 685–804) -/

/-- State of the template `LocalLLMService`. -/
structure LocalState where
  modelPath : Option String
  llm : Option Unit
  ready : Bool
  deriving DecidableEq, Repr

/-- Embedding of `LocalLLMService.is_ready` (llm.py lines 780–781). -/
def LocalLLMService.is_ready (st : LocalState) : Bool :=
  st.ready && st.llm.isSome

/-- Embedding of `LocalLLMService.complete` (llm.py lines 783–804): raises "Model not
loaded" if `_llm` is absent, else returns the model's text. -/
def LocalLLMService.complete (st : LocalState) (prompt : String)
    (oracle : String → String) :
    LocalState × Except LLMError String :=
  if st.llm.isNone then
    (st, .error (.runtimeError "Model not loaded"))
  else
    (st, .ok (oracle prompt))

/-! ### Ollama discovery (llm.py lines 468–500 and packaged ollama.py lines 45–84) -/

/-- Embedding of `OllamaDiscoveryResult` (both sources). -/
structure OllamaDiscoveryResult where
  available : Bool
  base_url : String
  models : List String
  error : Option String
  deriving DecidableEq, Repr

/-- What the `try` body of `discover_ollama` observes from httpx: either a
2xx response whose JSON yields a list of model names, or one of the raised
exceptions.  Each exception carries the text Python `str(e)` renders for it
(for `statusErr`, additionally the response status code the handler can
read). -/
inductive HttpOutcome where
  | success (models : List String)
  | connectErr (exnText : String)
  | timeoutErr (exnText : String)
  | statusErr (code : Nat) (exnText : String)
  | otherExn (exnText : String)
  deriving DecidableEq, Repr

/-- Template `discover_ollama` (llm.py lines 468–500).  Every exception class
is handled, so the embedding is a total function on the outcome: connection
refusal, timeout, non-2xx status and any other exception each produce a
distinct message. -/
def discover_ollama_template (url : String) (o : HttpOutcome) : OllamaDiscoveryResult :=
  match o with
  | .success models => { available := true, base_url := url, models := models, error := none }
  | .connectErr _ =>
      { available := false, base_url := url, models := [],
        error := some ("Cannot connect to Ollama at " ++ url ++
          ". Make sure Ollama is running (run \x27ollama serve\x27 or start the Ollama app).") }
  | .timeoutErr _ =>
      { available := false, base_url := url, models := [],
        error := some ("Connection to Ollama at " ++ url ++
          " timed out. The server may be busy or unresponsive.") }
  | .statusErr code _ =>
      { available := false, base_url := url, models := [],
        error := some ("Ollama returned an error (HTTP " ++ toString code ++
          "). Check if Ollama is working correctly.") }
  | .otherExn msg =>
      { available := false, base_url := url, models := [],
        error := some ("Unexpected error connecting to Ollama: " ++ msg) }

/-- Packaged `discover_ollama` (ollama.py lines 45–84).  Only
`httpx.ConnectError` has a dedicated handler; timeouts, HTTP status errors
and everything else fall into the generic `except Exception` handler, whose
error is exactly `str(e)`. -/
def discover_ollama_pkg (url : String) (o : HttpOutcome) : OllamaDiscoveryResult :=
  match o with
  | .success models => { available := true, base_url := url, models := models, error := none }
  | .connectErr _ =>
      { available := false, base_url := url, models := [],
        error := some ("Cannot connect to Ollama at " ++ url ++ ". Is it running?") }
  | .timeoutErr msg =>
      { available := false, base_url := url, models := [], error := some msg }
  | .statusErr _ msg =>
      { available := false, base_url := url, models := [], error := some msg }
  | .otherExn msg =>
      { available := false, base_url := url, models := [], error := some msg }

/-! ### Template Ollama adapter (`OllamaService`, llm.py lines 503–682) -/

/-- State of the template `OllamaService`. -/
structure OllamaState where
  model : Option String
  baseUrl : String
  client : Option Unit
  ready : Bool
  availableModels : List String
  deriving DecidableEq, Repr

/-- Embedding of `OllamaService.model_name` (llm.py lines 521–523): `_model or "not-set"`
(`or` takes the fallback for `None` and for the empty string). -/
def OllamaService.model_name (st : OllamaState) : String :=
  match st.model with
  | none => "not-set"
  | some m => if m = "" then "not-set" else m

/-- Embedding of `OllamaService.is_ready` (llm.py lines 594–595). -/
def OllamaService.is_ready (st : OllamaState) : Bool :=
  st.ready && st.client.isSome

/-- Payload of a POST to `/api/generate`. -/
structure GeneratePayload where
  model : Option String
  prompt : String
  temperature : ℚ
  numPredict : Option Nat
  deriving DecidableEq, Repr

/-- Response of `/api/generate`, as the adapter reads it: status plus the
optional "response" field of the JSON body. -/
structure GenerateResponse where
  status : Nat
  response : Option String
  deriving DecidableEq, Repr

/-- Embedding of `OllamaService.complete` (llm.py lines 604–625): raises if the client is
absent; includes `num_predict` only when `max_tokens` is truthy (`if
max_tokens:` — so `0` is dropped); `raise_for_status`; then
`json().get("response", "")`. -/
def OllamaService.complete (st : OllamaState) (prompt : String)
    (temperature : ℚ) (maxTokens : Option Nat)
    (oracle : GeneratePayload → GenerateResponse) :
    OllamaState × Except LLMError String :=
  if st.client.isNone then
    (st, .error (.runtimeError "Ollama client not initialized"))
  else
    let payload : GeneratePayload :=
      { model := st.model, prompt := prompt, temperature := temperature,
        numPredict := match maxTokens with
                      | some n => if n = 0 then none else some n
                      | none => none }
    let resp := oracle payload
    if is2xx resp.status then (st, .ok (resp.response.getD ""))
    else (st, .error (.httpStatusError resp.status))

/-- Payload of a POST to `/api/chat`.  `think = true` models the presence of
the `"think": True` key (the code only ever includes the key with value
`True`, and `payload.pop("think", None)` removes it). -/
structure ChatPayload where
  model : Option String
  messages : List WireMessage
  temperature : ℚ
  numPredict : Option Nat
  think : Bool
  deriving DecidableEq, Repr

/-- Response of `/api/chat`, as the adapter reads it. -/
structure ChatResponse where
  status : Nat
  content : Option String
  thinking : Option String
  promptEvalCount : Option Nat
  evalCount : Option Nat
  deriving DecidableEq, Repr

/-- The chat payload built at llm.py lines 650–662. -/
def mkChatPayload (st : OllamaState) (messages : List WireMessage)
    (temperature : ℚ) (maxTokens : Option Nat) (think : Bool) : ChatPayload :=
  { model := st.model, messages := messages, temperature := temperature,
    numPredict := match maxTokens with
                  | some n => if n = 0 then none else some n
                  | none => none,
    think := think }

/-- Embedding of `OllamaService.chat` (llm.py lines 627–682).  Returns the adapter state
(untouched by the method), the list of payloads POSTed to `/api/chat` in
order, and the outcome.  After the first POST, `if not response.is_success
and think:` the `think` key is popped and the POST is reissued once; then
`raise_for_status` applies to whichever response is current. -/
def OllamaService.chat (st : OllamaState) (messages : List WireMessage)
    (temperature : ℚ) (maxTokens : Option Nat) (think : Bool)
    (oracle : ChatPayload → ChatResponse) :
    OllamaState × List ChatPayload × Except LLMError ChatResult :=
  if st.client.isNone then
    (st, [], .error (.runtimeError "Ollama client not initialized"))
  else
    let p₁ := mkChatPayload st messages temperature maxTokens think
    let r₁ := oracle p₁
    let retried : List ChatPayload × ChatResponse :=
      if !is2xx r₁.status && think then
        let p₂ := { p₁ with think := false }
        ([p₁, p₂], oracle p₂)
      else ([p₁], r₁)
    if is2xx retried.2.status then
      (st, retried.1,
       .ok { content := retried.2.content.getD "", thinking := retried.2.thinking,
             inputTokens := retried.2.promptEvalCount, outputTokens := retried.2.evalCount })
    else (st, retried.1, .error (.httpStatusError retried.2.status))

/-- Python `x or fallback` on an optional string: the fallback is taken for
`None` and for the empty string. -/
def pyOrStr (o : Option String) (fallback : String) : String :=
  match o with
  | none => fallback
  | some s => if s = "" then fallback else s

/-- The hard-failure message of template `initialize` when the catalog is
empty (llm.py lines 554–558). -/
def noModelsFoundMsg : String :=
  "No models found in Ollama. Pull a model first with:\n  ollama pull llama3.2\nOr visit https://ollama.com/library to browse available models."

/-- Template `OllamaService.initialize` (llm.py lines 530–587), with the
discovery result passed in (the live call `discover_ollama(self._base_url)`).
Returns the adapter state after the method finishes or raises, together with
the raised error message if any.  Mutations made before a raise persist, as
in Python (`_client` is assigned first, `_available_models` before model
selection).  The `except ImportError` clause only concerns a missing httpx
package and re-raises; it never catches the `RuntimeError`s modelled here.
The model-verification `else` branch only prints warnings, which carry no
state. -/
def OllamaService.setup (st : OllamaState) (disc : OllamaDiscoveryResult) :
    OllamaState × Option String :=
  let st₁ := { st with client := some () }
  if !disc.available then
    (st₁, some (pyOrStr disc.error ("Cannot connect to Ollama at " ++ st.baseUrl)))
  else
    let st₂ := { st₁ with availableModels := disc.models }
    if pyFalsyStr st₂.model then
      match disc.models with
      | [] => (st₂, some noModelsFoundMsg)
      | m :: _ => ({ st₂ with model := some m, ready := true }, none)
    else
      ({ st₂ with ready := true }, none)

/-! ### Packaged Ollama adapter (ollama.py lines 87–371)

The packaged `OllamaService` carries the same observable state as the
template one (`_model`, `_base_url`, `_client`, `_ready`,
`_available_models`), so `OllamaState` is reused; the extra `_timeout`
float never influences any claim. -/

/-- Packaged `OllamaService.is_ready` (ollama.py lines 184–185). -/
def PkgOllama.is_ready (st : OllamaState) : Bool :=
  st.ready && st.client.isSome

/-- Packaged `OllamaService.initialize` (ollama.py lines 128–176): same
shape as the template, except the unavailability message is fixed (it does
not consult `discovery.error`) and the messages differ. -/
def PkgOllama.setup (st : OllamaState) (disc : OllamaDiscoveryResult) :
    OllamaState × Option String :=
  let st₁ := { st with client := some () }
  if !disc.available then
    (st₁, some ("Cannot connect to Ollama at " ++ st.baseUrl ++
      ". Make sure Ollama is running (run \x27ollama serve\x27)."))
  else
    let st₂ := { st₁ with availableModels := disc.models }
    if pyFalsyStr st₂.model then
      match disc.models with
      | [] => (st₂, some "No models available in Ollama. Pull a model first: ollama pull llama3.2")
      | m :: _ => ({ st₂ with model := some m, ready := true }, none)
    else
      ({ st₂ with ready := true }, none)

/-- Packaged `OllamaService.complete` (ollama.py lines 187–214): as the
template one, but `num_predict` is included whenever `max_tokens is not
None` (zero included). -/
def PkgOllama.complete (st : OllamaState) (prompt : String)
    (temperature : ℚ) (maxTokens : Option Nat)
    (oracle : GeneratePayload → GenerateResponse) :
    OllamaState × Except LLMError String :=
  if st.client.isNone then
    (st, .error (.runtimeError "Ollama client not initialized"))
  else
    let payload : GeneratePayload :=
      { model := st.model, prompt := prompt, temperature := temperature,
        numPredict := maxTokens }
    let resp := oracle payload
    if is2xx resp.status then (st, .ok (resp.response.getD ""))
    else (st, .error (.httpStatusError resp.status))

/-- Packaged `OllamaService.chat` (ollama.py lines 216–253): no thinking
flag, a single POST, `raise_for_status`, then
`data.get("message", {}).get("content", "")`. -/
def PkgOllama.chat (st : OllamaState) (messages : List WireMessage)
    (temperature : ℚ) (maxTokens : Option Nat)
    (oracle : ChatPayload → ChatResponse) :
    OllamaState × Except LLMError String :=
  if st.client.isNone then
    (st, .error (.runtimeError "Ollama client not initialized"))
  else
    let payload : ChatPayload :=
      { model := st.model, messages := messages, temperature := temperature,
        numPredict := maxTokens, think := false }
    let resp := oracle payload
    if is2xx resp.status then (st, .ok (resp.content.getD ""))
    else (st, .error (.httpStatusError resp.status))

/-- One newline-delimited line of a streaming response, as the adapter
consumes it: skipped if blank, skipped if not JSON, skipped if the JSON has
no "response" field, else a text chunk. -/
inductive StreamLine where
  | blank
  | badJson
  | noField
  | chunk (text : String)
  deriving DecidableEq, Repr

/-- The chunk a stream line contributes, if any (ollama.py lines 280–287). -/
def streamLineChunk : StreamLine → Option String
  | .chunk t => some t
  | _ => none

/-- A streaming HTTP response: status plus the delivered lines. -/
structure StreamResponse where
  status : Nat
  lines : List StreamLine
  deriving DecidableEq, Repr

/-- Packaged `OllamaService.stream` (ollama.py lines 255–287): raises if the
client is absent; `raise_for_status`; then yields the "response" field of
each JSON line.  The lazy generator is modelled by the finite list of chunks
it yields. -/
def PkgOllama.stream (st : OllamaState) (prompt : String)
    (temperature : ℚ) (maxTokens : Option Nat)
    (oracle : GeneratePayload → StreamResponse) :
    OllamaState × Except LLMError (List String) :=
  if st.client.isNone then
    (st, .error (.runtimeError "Ollama client not initialized"))
  else
    let payload : GeneratePayload :=
      { model := st.model, prompt := prompt, temperature := temperature,
        numPredict := maxTokens }
    let resp := oracle payload
    if is2xx resp.status then (st, .ok (resp.lines.filterMap streamLineChunk))
    else (st, .error (.httpStatusError resp.status))

/-! ## Model switching (`template/backend/app/routes/models.py` lines 94–164) -/

/-- Python `m.split(":")[0]`: everything before the first `:` (the whole
string when there is no `:`). -/
def baseNameStr (m : String) : String := ⟨m.data.takeWhile (fun c => c ≠ ':')⟩

/-- Embedding of `", ".join(models)`. -/
def joinComma (l : List String) : String := String.intercalate ", " l

/-- The route's view of the active service: its `service_type`, the result
of `is_ready()`, the mutable `_model` attribute, and (for the Gemini branch)
its `_available_models`. -/
structure RouteService where
  serviceType : String
  ready : Bool
  model : Option String
  availableModels : List String
  deriving DecidableEq, Repr

/-- The `model_name` the route reads for `previous_model`: the Ollama
property is `_model or "not-set"`; the Gemini property returns `_model`,
which that adapter never leaves `None` or empty, so the same view covers
both. -/
def modelNameView (svc : RouteService) : String :=
  match svc.model with
  | none => "not-set"
  | some m => if m = "" then "not-set" else m

/-- HTTP errors the route raises. -/
inductive RouteErr where
  | e503 (detail : String)
  | e404 (detail : String)
  | e400 (detail : String)
  deriving DecidableEq, Repr

/-- Embedding of `SwitchModelResponse` (models.py lines 24–28). -/
structure SwitchResponse where
  success : Bool
  previous_model : String
  current_model : String
  message : String
  deriving DecidableEq, Repr

/-- Embedding of `switch_model` (models.py lines 94–164), for a present service, with the
Ollama branch's re-discovery result passed in.  Returns the service state
after the call (the route mutates `llm_service._model` on success) and the
HTTP outcome. -/
def switch_model (svc : RouteService) (disc : OllamaDiscoveryResult)
    (requested : String) : RouteService × Except RouteErr SwitchResponse :=
  if !svc.ready then (svc, .error (.e503 "LLM service not ready"))
  else
    let previous := modelNameView svc
    if svc.serviceType = "ollama" then
      if !disc.available then (svc, .error (.e503 "Ollama not available"))
      else if disc.models.any (fun m => requested == m || requested == baseNameStr m) then
        ({ svc with model := some requested },
         .ok { success := true, previous_model := previous, current_model := requested,
               message := "Switched from " ++ previous ++ " to " ++ requested })
      else
        (svc, .error (.e404 ("Model \x27" ++ requested ++ "\x27 not found. Available: " ++
          joinComma disc.models)))
    else if svc.serviceType = "gemini" then
      if !svc.availableModels.contains requested then
        (svc, .error (.e404 ("Model \x27" ++ requested ++ "\x27 not found. Available: " ++
          joinComma svc.availableModels)))
      else
        ({ svc with model := some requested },
         .ok { success := true, previous_model := previous, current_model := requested,
               message := "Switched from " ++ previous ++ " to " ++ requested })
    else
      (svc, .error (.e400 ("Backend \x27" ++ svc.serviceType ++
        "\x27 does not support runtime model switching")))

/-! ## Chat route dispatch policy (`template/backend/app/routes/chat.py` lines 85–122) -/

/-- Embedding of `ChatMessage` of the chat route (chat.py lines 12–18). -/
structure RouteChatMessage where
  role : String
  content : String
  images : Option (List String)
  timestamp : Option Int
  deriving DecidableEq, Repr

/-- Embedding of `ChatRequest` of the chat route (chat.py lines 21–38).  `think` defaults
to `True` at the schema level but may arrive as JSON `null`, i.e. `None`. -/
structure RouteChatRequest where
  message : String
  images : Option (List String)
  history : Option (List RouteChatMessage)
  model : Option String
  temperature : Option ℚ
  maxTokens : Option Nat
  think : Option Bool
  deriving DecidableEq, Repr

/-- Embedding of `has_images` (chat.py lines 108–111): the current request's `images` is
truthy (a non-empty list), or some history message's `images` is truthy. -/
def chatHasImages (body : RouteChatRequest) : Bool :=
  pyTruthyList body.images ||
    (body.history.getD []).any (fun m => pyTruthyList m.images)

/-- Embedding of `use_thinking` (chat.py line 113), the `think` value the route passes to
`llm_service.chat` at line 121:
`False if has_images else (body.think if body.think is not None else True)`. -/
def chatUseThinking (body : RouteChatRequest) : Bool :=
  if chatHasImages body then false else body.think.getD true

/-! ## Structural lemmas about the classifier's matcher -/

/-- A successful `ciStrip` splits the text, with the matched segment the
length of the pattern. -/
theorem ciStrip_eq {pat t m r : List Char} (h : ciStrip pat t = some (m, r)) :
    t = m ++ r ∧ m.length = pat.length := by
  induction pat generalizing t m r with
  | nil =>
    simp only [ciStrip, Option.some.injEq, Prod.mk.injEq] at h
    obtain ⟨hm, hr⟩ := h
    subst hm; subst hr; simp
  | cons p ps ih =>
    cases t with
    | nil => simp [ciStrip] at h
    | cons c cs =>
      simp only [ciStrip] at h
      by_cases hc : lcAscii p = lcAscii c
      · rw [if_pos hc] at h
        cases heq : ciStrip ps cs with
        | none => rw [heq] at h; simp at h
        | some pr =>
          obtain ⟨m', r'⟩ := pr
          rw [heq] at h
          simp only [Option.some.injEq, Prod.mk.injEq] at h
          obtain ⟨hm, hr⟩ := h
          obtain ⟨hcs, hlen⟩ := ih heq
          subst hm; subst hr; subst hcs
          simp [hlen]
      · rw [if_neg hc] at h; simp at h

/-- A pattern case-insensitively matches itself at the front. -/
theorem ciStrip_self : ∀ (pat r : List Char), ciStrip pat (pat ++ r) = some (pat, r) := by
  intro pat
  induction pat with
  | nil => intro r; simp [ciStrip]
  | cons p ps ih => intro r; simp [ciStrip, ih]

/-- A successful `splitCI` splits the text around a match of the pattern's
length. -/
theorem splitCI_eq {pat : List Char} :
    ∀ {t b m r : List Char}, splitCI pat t = some (b, m, r) →
      t = b ++ m ++ r ∧ m.length = pat.length := by
  intro t
  induction t with
  | nil =>
    intro b m r h
    simp only [splitCI] at h
    cases heq : ciStrip pat [] with
    | none => rw [heq] at h; simp at h
    | some pr =>
      obtain ⟨m', r'⟩ := pr
      rw [heq] at h
      simp only [Option.some.injEq, Prod.mk.injEq] at h
      obtain ⟨hb, hm, hr⟩ := h
      obtain ⟨he, hl⟩ := ciStrip_eq heq
      subst hb; subst hm; subst hr
      exact ⟨by simpa using he, hl⟩
  | cons c cs ih =>
    intro b m r h
    simp only [splitCI] at h
    cases heq : ciStrip pat (c :: cs) with
    | some pr =>
      obtain ⟨m', r'⟩ := pr
      rw [heq] at h
      simp only [Option.some.injEq, Prod.mk.injEq] at h
      obtain ⟨hb, hm, hr⟩ := h
      obtain ⟨he, hl⟩ := ciStrip_eq heq
      subst hb; subst hm; subst hr
      exact ⟨by simpa using he, hl⟩
    | none =>
      rw [heq] at h
      cases heq₂ : splitCI pat cs with
      | none => rw [heq₂] at h; simp at h
      | some bmr =>
        obtain ⟨b', m', r'⟩ := bmr
        rw [heq₂] at h
        simp only [Option.some.injEq, Prod.mk.injEq] at h
        obtain ⟨hb, hm, hr⟩ := h
        obtain ⟨he, hl⟩ := ih heq₂
        subst hb; subst hm; subst hr
        exact ⟨by simp [he], hl⟩

/-- The tag-opening character is fixed by `lcAscii`. -/
theorem lcAscii_lt : lcAscii '<' = '<' := by decide

/-- In a text formed of a `<`-free piece, then a pattern starting with `<`,
then a remainder, the leftmost occurrence of the pattern is the literal
one. -/
theorem splitCI_first (ps : List Char) :
    ∀ (a r : List Char), noLt a = true →
      splitCI ('<' :: ps) (a ++ ('<' :: ps) ++ r) = some (a, '<' :: ps, r) := by
  intro a
  induction a with
  | nil =>
    intro r _
    have hself := ciStrip_self ('<' :: ps) r
    simp only [List.nil_append, List.cons_append] at hself ⊢
    simp [splitCI, hself]
  | cons c a' ih =>
    intro r ha
    simp only [noLt, List.all_cons, Bool.and_eq_true, bne_iff_ne, ne_eq] at ha
    obtain ⟨hc, ha'⟩ := ha
    have hcond : ¬ (lcAscii '<' = lcAscii c) := by
      rw [lcAscii_lt]; exact fun h => hc h.symm
    show splitCI ('<' :: ps) (c :: (a' ++ ('<' :: ps) ++ r)) = some (c :: a', '<' :: ps, r)
    have hstrip : ciStrip ('<' :: ps) (c :: (a' ++ ('<' :: ps) ++ r)) = none := by
      simp only [ciStrip, if_neg hcond]
    simp only [splitCI, hstrip]
    rw [ih r (by simpa [noLt] using ha')]

/-- A `<`-free text contains no occurrence of a pattern starting with `<`. -/
theorem splitCI_none (ps : List Char) :
    ∀ (l : List Char), noLt l = true → splitCI ('<' :: ps) l = none := by
  intro l
  induction l with
  | nil => intro _; simp [splitCI, ciStrip]
  | cons c cs ih =>
    intro ha
    simp only [noLt, List.all_cons, Bool.and_eq_true, bne_iff_ne, ne_eq] at ha
    obtain ⟨hc, ha'⟩ := ha
    have hcond : ¬ (lcAscii '<' = lcAscii c) := by
      rw [lcAscii_lt]; exact fun h => hc h.symm
    simp only [splitCI, ciStrip, if_neg hcond]
    rw [ih (by simpa [noLt] using ha')]

/-- An occurrence in a suffix is an occurrence in the whole text. -/
theorem splitCI_isSome_mono {pat v : List Char} (h : (splitCI pat v).isSome = true) :
    ∀ u, (splitCI pat (u ++ v)).isSome = true := by
  intro u
  induction u with
  | nil => simpa using h
  | cons c u' ih =>
    simp only [List.cons_append, splitCI]
    cases heq : ciStrip pat (c :: (u' ++ v)) with
    | some mr => simp
    | none =>
      cases heq₂ : splitCI pat (u' ++ v) with
      | none => rw [heq₂] at ih; simp at ih
      | some bmr => obtain ⟨b, m, r⟩ := bmr; simp

/-- The opening delimiter starts with `<`. -/
theorem openTag_cons : openTag = '<' :: "think>".data := rfl

/-- The closing delimiter starts with `<`. -/
theorem closeTag_cons : closeTag = '<' :: "/think>".data := rfl

/-- On a text assembled from a `<`-free piece, the literal delimiters around
a `<`-free inner text, and a remainder, the matcher finds exactly the
literal block. -/
theorem thinkSplit_concat (a x rest : List Char)
    (ha : noLt a = true) (hx : noLt x = true) :
    thinkSplit (a ++ openTag ++ (x ++ closeTag ++ rest)) = some (a, x, rest) := by
  have h₁ : splitCI openTag (a ++ openTag ++ (x ++ closeTag ++ rest))
      = some (a, openTag, x ++ closeTag ++ rest) := by
    rw [openTag_cons]
    exact splitCI_first "think>".data a (x ++ closeTag ++ rest) ha
  have h₂ : splitCI closeTag (x ++ closeTag ++ rest) = some (x, closeTag, rest) := by
    rw [closeTag_cons]
    exact splitCI_first "/think>".data x rest hx
  simp only [thinkSplit, h₁, h₂]

/-- No opening delimiter, no match. -/
theorem thinkSplit_none_noOpen {text : List Char}
    (h : splitCI openTag text = none) : thinkSplit text = none := by
  simp [thinkSplit, h]

/-- No closing delimiter anywhere, no match. -/
theorem thinkSplit_none_noClose {text : List Char}
    (h : splitCI closeTag text = none) : thinkSplit text = none := by
  cases heq : splitCI openTag text with
  | none => simp only [thinkSplit, heq]
  | some bmr =>
    obtain ⟨b, m, r⟩ := bmr
    cases heq₂ : splitCI closeTag r with
    | none => simp only [thinkSplit, heq, heq₂]
    | some x =>
      exfalso
      obtain ⟨ht, _⟩ := splitCI_eq heq
      have hmono : (splitCI closeTag ((b ++ m) ++ r)).isSome = true :=
        splitCI_isSome_mono (by simp [heq₂]) (b ++ m)
      rw [← ht, h] at hmono
      simp at hmono

/-- Each matcher step strictly shrinks the remaining text (by at least the
two delimiters). -/
theorem thinkSplit_length {text b inner r₂ : List Char}
    (h : thinkSplit text = some (b, inner, r₂)) : r₂.length < text.length := by
  cases heq : splitCI openTag text with
  | none => rw [thinkSplit_none_noOpen heq] at h; simp at h
  | some bmr =>
    obtain ⟨b₁, m₁, r₁⟩ := bmr
    cases heq₂ : splitCI closeTag r₁ with
    | none =>
      have hnone : thinkSplit text = none := by simp only [thinkSplit, heq, heq₂]
      rw [hnone] at h; simp at h
    | some imr =>
      obtain ⟨i₂, m₂, r₂'⟩ := imr
      have hsome : thinkSplit text = some (b₁, i₂, r₂') := by
        simp only [thinkSplit, heq, heq₂]
      rw [hsome] at h
      simp only [Option.some.injEq, Prod.mk.injEq] at h
      obtain ⟨hb, hi, hr⟩ := h
      subst hb; subst hi; subst hr
      obtain ⟨ht, hm₁⟩ := splitCI_eq heq
      obtain ⟨hr₁, hm₂⟩ := splitCI_eq heq₂
      have h₁ : m₁.length = 7 := by rw [hm₁]; rfl
      have h₂ : m₂.length = 8 := by rw [hm₂]; rfl
      rw [ht, hr₁]
      simp only [List.length_append]
      omega

/-- The scanner ignores its fuel when there is no match. -/
theorem thinkScanF_none {fuel : Nat} {text : List Char}
    (h : thinkSplit text = none) : thinkScanF fuel text = ([], text) := by
  cases fuel <;> simp [thinkScanF, h]

/-- There is no match in the empty text. -/
theorem thinkSplit_nil : thinkSplit ([] : List Char) = none := by decide

/-- Any two sufficient fuels give the scanner the same result. -/
theorem thinkScanF_fuel :
    ∀ (f₁ f₂ : Nat) (text : List Char), text.length ≤ f₁ → text.length ≤ f₂ →
      thinkScanF f₁ text = thinkScanF f₂ text := by
  intro f₁
  induction f₁ with
  | zero =>
    intro f₂ text h₁ _
    have htext : text = [] := List.eq_nil_of_length_eq_zero (Nat.le_zero.mp h₁)
    subst htext
    rw [thinkScanF_none thinkSplit_nil, thinkScanF_none thinkSplit_nil]
  | succ f ih =>
    intro f₂ text h₁ h₂
    cases f₂ with
    | zero =>
      have htext : text = [] := List.eq_nil_of_length_eq_zero (Nat.le_zero.mp h₂)
      subst htext
      rw [thinkScanF_none thinkSplit_nil, thinkScanF_none thinkSplit_nil]
    | succ f' =>
      cases heq : thinkSplit text with
      | none => rw [thinkScanF_none heq, thinkScanF_none heq]
      | some bir =>
        obtain ⟨b, i, r⟩ := bir
        have hlt := thinkSplit_length heq
        simp only [thinkScanF, heq]
        rw [ih f' r (by omega) (by omega)]

/-- Unfolding equation for `thinkScan` at a match. -/
theorem thinkScan_step {text b inner rest : List Char}
    (h : thinkSplit text = some (b, inner, rest)) :
    thinkScan text = (inner :: (thinkScan rest).1, b ++ (thinkScan rest).2) := by
  unfold thinkScan
  have hlt := thinkSplit_length h
  obtain ⟨k, hk⟩ : ∃ k, text.length = k + 1 := ⟨text.length - 1, by omega⟩
  rw [hk]
  simp only [thinkScanF, h]
  rw [thinkScanF_fuel k rest.length rest (by omega) (le_refl _)]

/-- Unfolding equation for `thinkScan` at a non-match. -/
theorem thinkScan_none {text : List Char} (h : thinkSplit text = none) :
    thinkScan text = ([], text) := by
  unfold thinkScan
  exact thinkScanF_none h

/-- Appending cannot empty a non-empty string. -/
theorem strAppend_ne_empty (a b : String) (ha : a ≠ "") : a ++ b ≠ "" := by
  intro h
  apply ha
  obtain ⟨la⟩ := a
  obtain ⟨lb⟩ := b
  have hd : la ++ lb = [] := congrArg String.data h
  have hla : la = [] := by
    cases la with
    | nil => rfl
    | cons c cs => simp at hd
  rw [hla]

/-- Interleaving a separator between exactly two pieces. -/
theorem intercalate_pair (sep u v : List Char) :
    List.intercalate sep [u, v] = u ++ (sep ++ v) := by
  simp [List.intercalate, List.intersperse]

/-- When the matcher finds nothing, the classifier returns the input
untouched. -/
theorem parse_eq_self_of_noMatch {text : String} (h : thinkSplit text.data = none) :
    parse_thinking_content text = (text, none) := by
  simp only [parse_thinking_content]
  rw [thinkScan_none h]
  simp

/-! ## Claim theorems -/

/-- C2, counterexample.  The claim states that
`estimate_cost("gpt-4o-mini-2024", 1_000_000, 0)` resolves via prefix match
to the `gpt-4o-mini` entry's input rate (0.15 USD).  In fact the prefix scan
takes the FIRST matching entry in insertion order, and `"gpt-4o-mini-2024"`
already starts with the earlier key `"gpt-4o"`, so the result is 2.50 USD,
not 0.15 USD. -/
theorem C2_first_matching_entry_counterexample :
    estimate_cost "gpt-4o-mini-2024" 1000000 0 = some 2.5
  ∧ estimate_cost "gpt-4o-mini-2024" 1000000 0 ≠ some 0.15 := by
  have h : estimate_cost "gpt-4o-mini-2024" 1000000 0 = some 2.5 := by
    simp +decide only [estimate_cost, resolvePricing, dictGet, scanStartswith,
      MODEL_PRICING, pyStartswith]
    norm_num
  refine ⟨h, ?_⟩
  rw [h]
  simp only [ne_eq, Option.some.injEq]
  norm_num

/-- C2 (amended): `estimate_cost` performs an exact pricing-table lookup
first and otherwise takes the first table entry whose key is a prefix of the
model name; in particular `estimate_cost("gpt-4o-mini-2024", 1_000_000, 0)`
resolves via prefix match to the FIRST matching entry, `gpt-4o` (2.50 USD
input rate), and `estimate_cost("unknown-model-x", 100, 100)` returns `None`
rather than zero. -/
theorem C2_pricing_lookup_amended :
    (∀ m p, dictGet m MODEL_PRICING = some p → resolvePricing m = some p)
  ∧ (∀ m, dictGet m MODEL_PRICING = none →
      resolvePricing m = scanStartswith m MODEL_PRICING)
  ∧ pyStartswith "gpt-4o-mini-2024" "gpt-4o" = true
  ∧ estimate_cost "gpt-4o-mini-2024" 1000000 0 = some 2.5
  ∧ estimate_cost "unknown-model-x" 100 100 = none := by
  refine ⟨?_, ?_, by decide, ?_, ?_⟩
  · intro m p h; simp [resolvePricing, h]
  · intro m h; simp [resolvePricing, h]
  · simp +decide only [estimate_cost, resolvePricing, dictGet, scanStartswith,
      MODEL_PRICING, pyStartswith]
    norm_num
  · simp +decide only [estimate_cost, resolvePricing, dictGet, scanStartswith,
      MODEL_PRICING, pyStartswith]

/-- C2 witness: the exact-lookup-first branch applied at `"gpt-4o"`. -/
theorem C2_pricing_lookup_amended_witness :
    resolvePricing "gpt-4o" = some (2.50, 10.00) :=
  C2_pricing_lookup_amended.1 "gpt-4o" (2.50, 10.00) rfl

/-- C10: whenever the model resolves to a pricing entry `(ic, oc)` (exactly
or by prefix), `estimate_cost` returns
`(i * ic + o * oc) / 1_000_000` and never `None`; with zero tokens it
returns 0, distinguishable from an unpriced model's `None`. -/
theorem C10_priced_model_cost :
    ∀ (model : String) (i o : ℤ) (ic oc : ℚ),
      resolvePricing model = some (ic, oc) →
      estimate_cost model i o = some ((i * ic + o * oc) / 1000000)
      ∧ estimate_cost model 0 0 = some 0
      ∧ estimate_cost model i o ≠ none := by
  intro model i o ic oc h
  refine ⟨by simp [estimate_cost, h], ?_, by simp [estimate_cost, h]⟩
  simp [estimate_cost, h]

/-- C10 witness: a priced model with zero tokens costs zero. -/
theorem C10_priced_model_cost_witness :
    estimate_cost "gpt-4o" 0 0 = some 0 :=
  (C10_priced_model_cost "gpt-4o" 3 7 2.50 10.00 rfl).2.1

/-- C5, counterexample.  The claim states the thinking output is the
think-blocks' inner texts joined with a blank-line separator; in fact each
inner text is stripped of surrounding whitespace before joining
(`part.strip()` in the source), so the inner text `" r "` comes back as
`"r"`, not `" r "`. -/
theorem C5_inner_trim_counterexample :
    parse_thinking_content "<think> r </think>answer" = ("answer", some "r")
  ∧ (parse_thinking_content "<think> r </think>answer").2 ≠ some " r " := by
  exact ⟨by decide, by decide⟩

/-- C5 (amended): `classify("<think>reasoning</think>answer")` yields
`("answer", "reasoning")`; any input with no opening think-delimiter is
returned unchanged with `thinking = none`; and for inputs with several
think-blocks, the thinking output is their inner texts EACH STRIPPED OF
SURROUNDING WHITESPACE, joined with a blank-line separator in document
order, while the visible output is the input with all delimited spans
removed and surrounding whitespace trimmed.  The several-blocks case is
stated for texts assembled from `<`-free pieces around literal delimiters
(so the blocks named in the statement are exactly the occurrences). -/
theorem C5_classifier_amended :
    parse_thinking_content "<think>reasoning</think>answer" = ("answer", some "reasoning")
  ∧ (∀ text : String, containsCI openTag text = false →
      parse_thinking_content text = (text, none))
  ∧ (∀ a x b y c : List Char,
      noLt a = true → noLt x = true → noLt b = true → noLt y = true → noLt c = true →
      parse_thinking_content
          ⟨a ++ openTag ++ (x ++ closeTag ++ (b ++ openTag ++ (y ++ closeTag ++ c)))⟩ =
        (⟨pyStripList (a ++ (b ++ c))⟩,
         some ⟨pyStripList x ++ ("\n\n".data ++ pyStripList y)⟩)) := by
  refine ⟨by decide, ?_, ?_⟩
  · intro text h
    apply parse_eq_self_of_noMatch
    apply thinkSplit_none_noOpen
    unfold containsCI at h
    exact Option.not_isSome_iff_eq_none.mp (by simp [h])
  · intro a x b y c ha hx hb hy hc
    have h₁ := thinkSplit_concat a x (b ++ openTag ++ (y ++ closeTag ++ c)) ha hx
    have h₂ := thinkSplit_concat b y c hb hy
    have h₃ : thinkSplit c = none := by
      apply thinkSplit_none_noOpen
      rw [openTag_cons]
      exact splitCI_none "think>".data c hc
    simp only [parse_thinking_content]
    rw [thinkScan_step h₁, thinkScan_step h₂, thinkScan_none h₃]
    simp [intercalate_pair]

/-- C5 witness: the no-delimiter case at `"plain"` and the two-block case at
a concrete input with whitespace around the first inner text. -/
theorem C5_classifier_amended_witness :
    parse_thinking_content "plain" = ("plain", none)
  ∧ parse_thinking_content
        ⟨"A ".data ++ openTag ++ (" r1 ".data ++ closeTag ++
          (" B ".data ++ openTag ++ ("r2".data ++ closeTag ++ " C".data)))⟩ =
      (⟨pyStripList ("A ".data ++ (" B ".data ++ " C".data))⟩,
       some ⟨pyStripList " r1 ".data ++ ("\n\n".data ++ pyStripList "r2".data)⟩) :=
  ⟨C5_classifier_amended.2.1 "plain" (by decide),
   C5_classifier_amended.2.2 "A ".data " r1 ".data " B ".data "r2".data " C".data
     (by decide) (by decide) (by decide) (by decide) (by decide)⟩

/-- C9: an input containing an opening `<think>` delimiter but no closing
`</think>` delimiter anywhere is treated as containing no reasoning markup:
the classifier returns the full input unchanged (no trimming) with
`thinking = none`. -/
theorem C9_unmatched_open_preserved :
    ∀ text : String, containsCI openTag text = true → containsCI closeTag text = false →
      parse_thinking_content text = (text, none) := by
  intro text _ hclose
  apply parse_eq_self_of_noMatch
  apply thinkSplit_none_noClose
  unfold containsCI at hclose
  exact Option.not_isSome_iff_eq_none.mp (by simp [hclose])

/-- C9 witness: a dangling `<think>` tag is preserved verbatim. -/
theorem C9_unmatched_open_preserved_witness :
    parse_thinking_content "x<think>unclosed" = ("x<think>unclosed", none) :=
  C9_unmatched_open_preserved "x<think>unclosed" (by decide) (by decide)

/-- C1, counterexample.  The claim states every adapter's `complete` fails
with a NotReady error while `is_ready()` is false.  The mock adapter's
`complete` performs no readiness check at all: with `_ready = False`,
`is_ready()` is false, yet `complete` succeeds with its templated
response. -/
theorem C1_mock_not_ready_counterexample :
    MockLLMService.is_ready ⟨false⟩ = false
  ∧ MockLLMService.complete ⟨false⟩ "hi"
      = (⟨false⟩, .ok "This is a mock response to: hi...")
  ∧ exceptOk (MockLLMService.complete ⟨false⟩ "hi").2 = true := by
  exact ⟨rfl, rfl, rfl⟩

/-- C1 (amended): for the hosted-API, local-daemon, and native-in-process
adapters, `complete`/`chat`/`stream` invoked while the transport handle is
absent (`None`) fail with a runtime "not initialized"/"not loaded" error and
leave the adapter's state unchanged; the mock adapters' `complete` never
fails and returns the templated response regardless of readiness (readiness
beyond handle-presence is not checked by any operation). -/
theorem C1_transport_guard_amended :
    (∀ (st : OllamaState) (p : String) (t : ℚ) (mt : Option Nat)
        (oracle : GeneratePayload → GenerateResponse), st.client = none →
        OllamaService.complete st p t mt oracle
          = (st, .error (.runtimeError "Ollama client not initialized")))
  ∧ (∀ (st : OllamaState) (msgs : List WireMessage) (t : ℚ) (mt : Option Nat)
        (think : Bool) (oracle : ChatPayload → ChatResponse), st.client = none →
        OllamaService.chat st msgs t mt think oracle
          = (st, [], .error (.runtimeError "Ollama client not initialized")))
  ∧ (∀ (st : OpenAIState) (p : String) (oracle : List WireMessage → OpenAIResponse),
        st.client = none →
        OpenAIService.complete st p oracle
          = (st, .error (.runtimeError "OpenAI client not initialized")))
  ∧ (∀ (st : OpenAIState) (msgs : List WireMessage)
        (oracle : List WireMessage → OpenAIResponse), st.client = none →
        OpenAIService.chat st msgs oracle
          = (st, .error (.runtimeError "OpenAI client not initialized")))
  ∧ (∀ (st : LocalState) (p : String) (oracle : String → String), st.llm = none →
        LocalLLMService.complete st p oracle
          = (st, .error (.runtimeError "Model not loaded")))
  ∧ (∀ (st : OllamaState) (p : String) (t : ℚ) (mt : Option Nat)
        (oracle : GeneratePayload → GenerateResponse), st.client = none →
        PkgOllama.complete st p t mt oracle
          = (st, .error (.runtimeError "Ollama client not initialized")))
  ∧ (∀ (st : OllamaState) (msgs : List WireMessage) (t : ℚ) (mt : Option Nat)
        (oracle : ChatPayload → ChatResponse), st.client = none →
        PkgOllama.chat st msgs t mt oracle
          = (st, .error (.runtimeError "Ollama client not initialized")))
  ∧ (∀ (st : OllamaState) (p : String) (t : ℚ) (mt : Option Nat)
        (oracle : GeneratePayload → StreamResponse), st.client = none →
        PkgOllama.stream st p t mt oracle
          = (st, .error (.runtimeError "Ollama client not initialized")))
  ∧ (∀ (st : MockState) (p : String),
        (MockLLMService.complete st p).1 = st
      ∧ exceptOk (MockLLMService.complete st p).2 = true)
  ∧ (∀ (st : PkgMockState) (p : String),
        (PkgMock.complete st p).1 = st ∧ exceptOk (PkgMock.complete st p).2 = true) := by
  refine ⟨?_, ?_, ?_, ?_, ?_, ?_, ?_, ?_, ?_, ?_⟩
  · intro st p t mt oracle h; simp [OllamaService.complete, h]
  · intro st msgs t mt think oracle h; simp [OllamaService.chat, h]
  · intro st p oracle h; simp [OpenAIService.complete, h]
  · intro st msgs oracle h; simp [OpenAIService.chat, h]
  · intro st p oracle h; simp [LocalLLMService.complete, h]
  · intro st p t mt oracle h; simp [PkgOllama.complete, h]
  · intro st msgs t mt oracle h; simp [PkgOllama.chat, h]
  · intro st p t mt oracle h; simp [PkgOllama.stream, h]
  · intro st p; exact ⟨rfl, rfl⟩
  · intro st p; exact ⟨rfl, rfl⟩

/-- C1 witness: the guard applied to a concrete handle-less Ollama
adapter. -/
theorem C1_transport_guard_amended_witness :
    OllamaService.complete ⟨none, "http://localhost:11434", none, false, []⟩ "hi" 1 none
        (fun _ => ⟨200, some "ok"⟩)
      = (⟨none, "http://localhost:11434", none, false, []⟩,
         .error (.runtimeError "Ollama client not initialized")) :=
  C1_transport_guard_amended.1 ⟨none, "http://localhost:11434", none, false, []⟩
    "hi" 1 none (fun _ => ⟨200, some "ok"⟩) rfl

/-- C3, counterexample.  The claim states that only a rejection caused
specifically by the reasoning flag is retried and that no request in any
other situation is retried.  The code retries whenever the first response of
a think-enabled request is unsuccessful, whatever the cause: against a
backend that rejects every request with HTTP 500 regardless of the flag
(the same response with and without it), a second request is still
issued. -/
theorem C3_retry_on_any_failure_counterexample :
    (fun (_ : ChatPayload) => (⟨500, none, none, none, none⟩ : ChatResponse))
        (mkChatPayload ⟨some "m", "u", some (), true, ["m"]⟩ [] 1 none true)
      = (fun (_ : ChatPayload) => (⟨500, none, none, none, none⟩ : ChatResponse))
        { mkChatPayload ⟨some "m", "u", some (), true, ["m"]⟩ [] 1 none true with think := false }
  ∧ (OllamaService.chat ⟨some "m", "u", some (), true, ["m"]⟩ [] 1 none true
        (fun _ => ⟨500, none, none, none, none⟩)).2.1
      = [mkChatPayload ⟨some "m", "u", some (), true, ["m"]⟩ [] 1 none true,
         { mkChatPayload ⟨some "m", "u", some (), true, ["m"]⟩ [] 1 none true with think := false }]
  ∧ (OllamaService.chat ⟨some "m", "u", some (), true, ["m"]⟩ [] 1 none true
        (fun _ => ⟨500, none, none, none, none⟩)).2.2
      = .error (.httpStatusError 500) := by
  exact ⟨rfl, rfl, rfl⟩

/-- C3 (amended): in the local-daemon chat path, a think-enabled request
whose FIRST response is unsuccessful — whatever the cause — is retried
exactly once with the flag removed, and the final result is computed from
the retried response alone (never from the original rejection); a request
without the think flag, or whose first response succeeds, is never
retried. -/
theorem C3_retry_policy_amended :
    ∀ (st : OllamaState) (msgs : List WireMessage) (t : ℚ) (mt : Option Nat)
      (oracle : ChatPayload → ChatResponse), st.client = some () →
      ((OllamaService.chat st msgs t mt false oracle).2.1
          = [mkChatPayload st msgs t mt false])
    ∧ (∀ think : Bool, is2xx (oracle (mkChatPayload st msgs t mt think)).status = true →
        (OllamaService.chat st msgs t mt think oracle).2.1
          = [mkChatPayload st msgs t mt think])
    ∧ (is2xx (oracle (mkChatPayload st msgs t mt true)).status = false →
        (OllamaService.chat st msgs t mt true oracle).2.1
          = [mkChatPayload st msgs t mt true,
             { mkChatPayload st msgs t mt true with think := false }]
      ∧ (OllamaService.chat st msgs t mt true oracle).2.2
          = (if is2xx (oracle { mkChatPayload st msgs t mt true with think := false }).status
             then .ok { content := (oracle { mkChatPayload st msgs t mt true with think := false }).content.getD "",
                        thinking := (oracle { mkChatPayload st msgs t mt true with think := false }).thinking,
                        inputTokens := (oracle { mkChatPayload st msgs t mt true with think := false }).promptEvalCount,
                        outputTokens := (oracle { mkChatPayload st msgs t mt true with think := false }).evalCount }
             else .error (.httpStatusError
                    (oracle { mkChatPayload st msgs t mt true with think := false }).status))) := by
  intro st msgs t mt oracle hclient
  have hcl : st.client.isNone = false := by rw [hclient]; rfl
  refine ⟨?_, ?_, ?_⟩
  · simp only [OllamaService.chat, hcl, Bool.false_eq_true, if_false, Bool.and_false]
    split <;> rfl
  · intro think hok
    simp only [OllamaService.chat, hcl, Bool.false_eq_true, if_false, hok,
      Bool.not_true, Bool.false_and]
    split <;> rfl
  · intro hfail
    constructor
    · simp only [OllamaService.chat, hcl, Bool.false_eq_true, if_false, hfail,
        Bool.not_false, Bool.true_and, if_true]
      split <;> rfl
    · simp only [OllamaService.chat, hcl, Bool.false_eq_true, if_false, hfail,
        Bool.not_false, Bool.true_and, if_true]
      split <;> rfl

/-- C3 witness: a backend that rejects exactly the think flag; the retried
request drops the flag. -/
theorem C3_retry_policy_amended_witness :
    (OllamaService.chat ⟨some "m", "u", some (), true, ["m"]⟩ [] 1 none true
        (fun p => if p.think then ⟨400, none, none, none, none⟩
                  else ⟨200, some "ans", none, some 3, some 4⟩)).2.1
      = [mkChatPayload ⟨some "m", "u", some (), true, ["m"]⟩ [] 1 none true,
         { mkChatPayload ⟨some "m", "u", some (), true, ["m"]⟩ [] 1 none true
           with think := false }] :=
  ((C3_retry_policy_amended ⟨some "m", "u", some (), true, ["m"]⟩ [] 1 none
      (fun p => if p.think then ⟨400, none, none, none, none⟩
                else ⟨200, some "ans", none, some 3, some 4⟩) rfl).2.2 rfl).1

/-- C4, counterexample.  The claim admits a name matching a catalog entry
with everything from the first `:` stripped.  In the Gemini branch of
`switch_model` only exact membership counts: with catalog
`["gemini-pro:latest"]`, the request `"gemini-pro"` matches by the claim's
stripping rule, yet the route answers 404 and leaves the model
unchanged. -/
theorem C4_gemini_strip_counterexample :
    "gemini-pro" = baseNameStr "gemini-pro:latest"
  ∧ (switch_model ⟨"gemini", true, some "g", ["gemini-pro:latest"]⟩
        ⟨true, "u", [], none⟩ "gemini-pro").1
      = ⟨"gemini", true, some "g", ["gemini-pro:latest"]⟩
  ∧ (switch_model ⟨"gemini", true, some "g", ["gemini-pro:latest"]⟩
        ⟨true, "u", [], none⟩ "gemini-pro").2
      = .error (.e404 "Model \x27gemini-pro\x27 not found. Available: gemini-pro:latest") := by
  exact ⟨rfl, rfl, rfl⟩

/-- C4 (amended): for a ready service, `switch_model` on the Ollama backend
succeeds exactly when the requested name matches a discovered catalog entry
exactly or with everything from the first `:` stripped, setting the current
model to the requested name; otherwise it fails with NotFound (404) leaving
the model unchanged.  On the Gemini backend the same holds but with EXACT
matching only.  Any other backend is rejected with 400 and the model is
unchanged. -/
theorem C4_switch_model_amended :
    ∀ (svc : RouteService) (disc : OllamaDiscoveryResult) (requested : String),
      svc.ready = true →
      ( (svc.serviceType = "ollama" → disc.available = true →
          ((disc.models.any (fun m => requested == m || requested == baseNameStr m) = true →
              switch_model svc disc requested
                = ({ svc with model := some requested },
                   .ok { success := true, previous_model := modelNameView svc,
                         current_model := requested,
                         message := "Switched from " ++ modelNameView svc ++ " to " ++ requested }))
          ∧ (disc.models.any (fun m => requested == m || requested == baseNameStr m) = false →
              switch_model svc disc requested
                = (svc, .error (.e404 ("Model \x27" ++ requested ++ "\x27 not found. Available: "
                    ++ joinComma disc.models))))))
      ∧ (svc.serviceType = "gemini" →
          ((svc.availableModels.contains requested = true →
              switch_model svc disc requested
                = ({ svc with model := some requested },
                   .ok { success := true, previous_model := modelNameView svc,
                         current_model := requested,
                         message := "Switched from " ++ modelNameView svc ++ " to " ++ requested }))
          ∧ (svc.availableModels.contains requested = false →
              switch_model svc disc requested
                = (svc, .error (.e404 ("Model \x27" ++ requested ++ "\x27 not found. Available: "
                    ++ joinComma svc.availableModels))))))
      ∧ (svc.serviceType ≠ "ollama" → svc.serviceType ≠ "gemini" →
          switch_model svc disc requested
            = (svc, .error (.e400 ("Backend \x27" ++ svc.serviceType
                ++ "\x27 does not support runtime model switching")))) ) := by
  intro svc disc requested hr
  refine ⟨?_, ?_, ?_⟩
  · intro hb ha
    constructor
    · intro hm; simp [switch_model, hr, hb, ha, hm]
    · intro hm; simp [switch_model, hr, hb, ha, hm]
  · intro hb
    constructor
    · intro hm
      have hm' : requested ∈ svc.availableModels := by simpa using hm
      simp [switch_model, hr, hb, hm']
    · intro hm
      have hm' : requested ∉ svc.availableModels := by simpa using hm
      simp [switch_model, hr, hb, hm']
  · intro h₁ h₂
    simp [switch_model, hr, h₁, h₂]

/-- C4 witness: a prefix-stripped switch on the Ollama backend succeeds and
installs the requested name. -/
theorem C4_switch_model_amended_witness :
    switch_model ⟨"ollama", true, some "old", []⟩
        ⟨true, "u", ["llama3.2:latest"], none⟩ "llama3.2"
      = (⟨"ollama", true, some "llama3.2", []⟩,
         .ok { success := true, previous_model := "old", current_model := "llama3.2",
               message := "Switched from old to llama3.2" }) :=
  ((C4_switch_model_amended ⟨"ollama", true, some "old", []⟩
      ⟨true, "u", ["llama3.2:latest"], none⟩ "llama3.2" rfl).1 rfl rfl).1 (by decide)

/-- C6, counterexample.  The claim (sourced to both `discover_ollama`
implementations) requires a distinct "unresponsive" message on timeout and a
non-empty error for every failure.  The packaged implementation funnels a
timeout through its generic handler: its result is identical to that of any
other exception rendering to the same text, and the error is exactly the
exception's text — which is empty for an exception rendering to `""`
(`str(Exception())` in Python). -/
theorem C6_pkg_discovery_counterexample :
    discover_ollama_pkg "http://localhost:11434" (.timeoutErr "boom")
      = discover_ollama_pkg "http://localhost:11434" (.otherExn "boom")
  ∧ (discover_ollama_pkg "http://localhost:11434" (.timeoutErr "boom")).error = some "boom"
  ∧ (discover_ollama_pkg "http://localhost:11434" (.otherExn "")).error = some "" := by
  exact ⟨rfl, rfl, rfl⟩

/-- C6 (amended): neither implementation ever propagates an exception (both
are total over every failure outcome, returning `available = false` and an
empty catalog).  The template implementation returns, for each failure kind,
the distinct non-empty message shown (refusal explains how to start the
daemon, timeout says "unresponsive", a non-2xx failure carries its status
code, anything else is prefixed "Unexpected error...").  The packaged
implementation distinguishes only connection refusal; timeouts, HTTP status
errors and all other exceptions are reported with exactly the exception's
own rendered text. -/
theorem C6_discovery_amended :
    (∀ url models, discover_ollama_template url (.success models)
        = ⟨true, url, models, none⟩)
  ∧ (∀ url e, discover_ollama_template url (.connectErr e)
        = ⟨false, url, [], some ("Cannot connect to Ollama at " ++ url ++
            ". Make sure Ollama is running (run \x27ollama serve\x27 or start the Ollama app).")⟩)
  ∧ (∀ url e, discover_ollama_template url (.timeoutErr e)
        = ⟨false, url, [], some ("Connection to Ollama at " ++ url ++
            " timed out. The server may be busy or unresponsive.")⟩)
  ∧ (∀ url c e, discover_ollama_template url (.statusErr c e)
        = ⟨false, url, [], some ("Ollama returned an error (HTTP " ++ toString c ++
            "). Check if Ollama is working correctly.")⟩)
  ∧ (∀ url e, discover_ollama_template url (.otherExn e)
        = ⟨false, url, [], some ("Unexpected error connecting to Ollama: " ++ e)⟩)
  ∧ (∀ url e, (discover_ollama_template url (.connectErr e)).error ≠ some ""
        ∧ (discover_ollama_template url (.timeoutErr e)).error ≠ some ""
        ∧ (discover_ollama_template url (.otherExn e)).error ≠ some "")
  ∧ (∀ url c e, (discover_ollama_template url (.statusErr c e)).error ≠ some "")
  ∧ (∀ url models, discover_ollama_pkg url (.success models) = ⟨true, url, models, none⟩)
  ∧ (∀ url e, discover_ollama_pkg url (.connectErr e)
        = ⟨false, url, [], some ("Cannot connect to Ollama at " ++ url ++ ". Is it running?")⟩)
  ∧ (∀ url e, discover_ollama_pkg url (.timeoutErr e) = ⟨false, url, [], some e⟩)
  ∧ (∀ url c e, discover_ollama_pkg url (.statusErr c e) = ⟨false, url, [], some e⟩)
  ∧ (∀ url e, discover_ollama_pkg url (.otherExn e) = ⟨false, url, [], some e⟩) := by
  refine ⟨fun url models => rfl, fun url e => rfl, fun url e => rfl,
    fun url c e => rfl, fun url e => rfl, ?_, ?_,
    fun url models => rfl, fun url e => rfl, fun url e => rfl,
    fun url c e => rfl, fun url e => rfl⟩
  · intro url e
    refine ⟨?_, ?_, ?_⟩ <;>
      · simp only [discover_ollama_template, ne_eq, Option.some.injEq]
        first
        | exact strAppend_ne_empty _ _ (strAppend_ne_empty _ _ (by decide))
        | exact strAppend_ne_empty _ _ (by decide)
  · intro url c e
    simp only [discover_ollama_template, ne_eq, Option.some.injEq]
    exact strAppend_ne_empty _ _ (strAppend_ne_empty _ _ (by decide))

/-- C6 witness: the template refusal message at a concrete address. -/
theorem C6_discovery_amended_witness :
    discover_ollama_template "http://localhost:11434" (.connectErr "x")
      = ⟨false, "http://localhost:11434", [],
         some ("Cannot connect to Ollama at http://localhost:11434" ++
           ". Make sure Ollama is running (run \x27ollama serve\x27 or start the Ollama app).")⟩ :=
  C6_discovery_amended.2.1 "http://localhost:11434" "x"

/-- C7: local-daemon `initialize` (both the template and the packaged
implementation) with no configured model name and a reachable daemon:
a non-empty discovered catalog makes it select the catalog's first entry and
become ready; an empty catalog makes it raise and the adapter does not
become ready. -/
theorem C7_auto_select :
    ∀ (st : OllamaState) (disc : OllamaDiscoveryResult),
      pyFalsyStr st.model = true → disc.available = true → st.ready = false →
      ( (∀ m ms, disc.models = m :: ms →
          OllamaService.setup st disc
            = ({ st with
                  client := some (),
                  availableModels := m :: ms,
                  model := some m,
                  ready := true }, none)
        ∧ PkgOllama.setup st disc
            = ({ st with
                  client := some (),
                  availableModels := m :: ms,
                  model := some m,
                  ready := true }, none)
        ∧ OllamaService.is_ready (OllamaService.setup st disc).1 = true
        ∧ PkgOllama.is_ready (PkgOllama.setup st disc).1 = true)
      ∧ (disc.models = [] →
          OllamaService.setup st disc
            = ({ st with client := some (), availableModels := [] }, some noModelsFoundMsg)
        ∧ PkgOllama.setup st disc
            = ({ st with client := some (), availableModels := [] },
               some "No models available in Ollama. Pull a model first: ollama pull llama3.2")
        ∧ OllamaService.is_ready (OllamaService.setup st disc).1 = false
        ∧ PkgOllama.is_ready (PkgOllama.setup st disc).1 = false) ) := by
  intro st disc hmodel havail hready
  constructor
  · intro m ms hm
    have h₁ : OllamaService.setup st disc
        = ({ st with
              client := some (),
              availableModels := m :: ms,
              model := some m,
              ready := true }, none) := by
      simp [OllamaService.setup, havail, hmodel, hm]
    have h₂ : PkgOllama.setup st disc
        = ({ st with
              client := some (),
              availableModels := m :: ms,
              model := some m,
              ready := true }, none) := by
      simp [PkgOllama.setup, havail, hmodel, hm]
    refine ⟨h₁, h₂, ?_, ?_⟩
    · rw [h₁]; simp [OllamaService.is_ready]
    · rw [h₂]; simp [PkgOllama.is_ready]
  · intro hm
    have h₁ : OllamaService.setup st disc
        = ({ st with client := some (), availableModels := [] }, some noModelsFoundMsg) := by
      simp [OllamaService.setup, havail, hmodel, hm]
    have h₂ : PkgOllama.setup st disc
        = ({ st with client := some (), availableModels := [] },
           some "No models available in Ollama. Pull a model first: ollama pull llama3.2") := by
      simp [PkgOllama.setup, havail, hmodel, hm]
    refine ⟨h₁, h₂, ?_, ?_⟩
    · rw [h₁]; simp [OllamaService.is_ready, hready]
    · rw [h₂]; simp [PkgOllama.is_ready, hready]

/-- C7 witness: auto-selection of the first catalog entry at a concrete
state, and the hard failure on an empty catalog. -/
theorem C7_auto_select_witness :
    OllamaService.setup ⟨none, "http://localhost:11434", none, false, []⟩
        ⟨true, "http://localhost:11434", ["llama3.2:latest", "qwen3:8b"], none⟩
      = (⟨some "llama3.2:latest", "http://localhost:11434", some (), true,
          ["llama3.2:latest", "qwen3:8b"]⟩, none)
  ∧ OllamaService.setup ⟨none, "http://localhost:11434", none, false, []⟩
        ⟨true, "http://localhost:11434", [], none⟩
      = (⟨none, "http://localhost:11434", some (), false, []⟩, some noModelsFoundMsg) :=
  ⟨((C7_auto_select ⟨none, "http://localhost:11434", none, false, []⟩
      ⟨true, "http://localhost:11434", ["llama3.2:latest", "qwen3:8b"], none⟩
      rfl rfl rfl).1 "llama3.2:latest" ["qwen3:8b"] rfl).1,
   ((C7_auto_select ⟨none, "http://localhost:11434", none, false, []⟩
      ⟨true, "http://localhost:11434", [], none⟩ rfl rfl rfl).2 rfl).1⟩

/-- C8: a chat request in which the current message or any history message
carries a (non-empty) image attachment list is dispatched with the thinking
flag disabled regardless of the caller-supplied flag; with no images the
caller-supplied flag is forwarded, defaulting to true when absent. -/
theorem C8_vision_think_override :
    ∀ body : RouteChatRequest,
      (chatHasImages body = true ↔
        pyTruthyList body.images = true ∨
          ∃ m ∈ body.history.getD [], pyTruthyList m.images = true)
    ∧ (chatHasImages body = true → chatUseThinking body = false)
    ∧ (chatHasImages body = false → chatUseThinking body = body.think.getD true)
    ∧ (chatHasImages body = false → body.think = none → chatUseThinking body = true) := by
  intro body
  refine ⟨?_, ?_, ?_, ?_⟩
  · simp [chatHasImages, List.any_eq_true]
  · intro h; simp [chatUseThinking, h]
  · intro h; simp [chatUseThinking, h]
  · intro h ht; simp [chatUseThinking, h, ht]

/-- C8 witness: an image-carrying request with `think = true` is dispatched
without thinking; an image-free request with `think` absent defaults to
thinking enabled. -/
theorem C8_vision_think_override_witness :
    chatUseThinking ⟨"hi", some ["img"], none, none, none, none, some true⟩ = false
  ∧ chatUseThinking ⟨"hi", none, none, none, none, none, none⟩ = true :=
  ⟨(C8_vision_think_override ⟨"hi", some ["img"], none, none, none, none, some true⟩).2.1 rfl,
   (C8_vision_think_override ⟨"hi", none, none, none, none, none, none⟩).2.2.2 rfl rfl⟩
